import Mathlib

/-!
Verification of the MouseControl core against its specification.

The definitions below are shallow embeddings of the Python sources:
  - src/core/mouse_hook.py  (low-level mouse filter, deferred scroll injection,
    dispatch of symbolic events)
  - src/hid_gesture.py      (HID++ protocol client: parsing, request matching,
    notification decoding, gesture edge detection, DPI clamp, teardown)
  - src/engine.py           (rewiring of the binding table from a profile mapping)
  - src/core/config.py      (profile selection by foreground executable)

Machine integers are modelled as Nat (bytes, DWORDs) and Int (signed
quantities), with explicit masking where the source relies on word width.
-/

namespace MouseControl

/-! ## Constants from src/hid_gesture.py and src/core/mouse_hook.py -/

def SHORT_ID : Nat := 0x10
def LONG_ID : Nat := 0x11
def LONG_LEN : Nat := 20
def MY_SW : Nat := 0x0A
def CID_GESTURE : Nat := 0x00C3
def XBUTTON1 : Int := 0x0001
def XBUTTON2 : Int := 0x0002

/-! ## hiword — src/core/mouse_hook.py, lines 167-172

```python
def hiword(dword):
    val = (dword >> 16) & 0xFFFF
    if val >= 0x8000:
        val -= 0x10000
    return val
```
-/

/-- Embedding of hiword: extract the high word of a 32-bit value and
sign-extend it as a 16-bit two's-complement quantity. -/
def hiword (dword : Nat) : Int :=
  let val : Nat := (dword >>> 16) &&& 0xFFFF
  if val ≥ 0x8000 then (val : Int) - 0x10000 else (val : Int)

/-- Embedding of the WM_XBUTTONDOWN / WM_XBUTTONUP branch of
MouseHook._low_level_handler (src/core/mouse_hook.py lines 308-324): the
side-button selector is hiword of the mouseData field, compared against
XBUTTON1 and XBUTTON2. -/
def xbuttonEvent (down : Bool) (mouse_data : Nat) : Option String :=
  let xbutton := hiword mouse_data
  if xbutton = XBUTTON1 then some (if down then "xbutton1_down" else "xbutton1_up")
  else if xbutton = XBUTTON2 then some (if down then "xbutton2_down" else "xbutton2_up")
  else none

/-! ## DPI clamp — src/hid_gesture.py, line 220

```python
dpi = max(200, min(8200, int(dpi_value)))  # MX Master 3S max is 8000
```
-/

/-- Embedding of the clamp performed by HidGestureListener.set_dpi before the
value is queued for the listener thread. -/
def set_dpi_clamp (dpi_value : Int) : Int :=
  max 200 (min 8200 dpi_value)

/-- Embedding of the parameter bytes built by
HidGestureListener._apply_pending_dpi (src/hid_gesture.py lines 241-245):
params = [sensorIdx = 0, dpi high byte, dpi low byte]. -/
def dpiSetParams (dpi : Nat) : List Nat :=
  [0x00, (dpi >>> 8) &&& 0xFF, dpi &&& 0xFF]

/-! ## Protocol session teardown — src/hid_gesture.py, lines 402-411

After a read error or a failed listen session, HidGestureListener._main_loop
runs, before the backoff sleep:

```python
self._undivert()
...close self._dev...
self._dev = None
self._feat_idx = None
self._held = False
```

The field `_dpi_idx` is not touched on this path.
-/

/-- Protocol-session state of HidGestureListener relevant to teardown:
device handle present, discovered REPROG_V4 feature index, discovered
ADJUSTABLE_DPI feature index, gesture held-state. -/
structure HGState where
  dev : Bool
  feat_idx : Option Nat
  dpi_idx : Option Nat
  held : Bool
deriving DecidableEq, Repr

/-- Embedding of the teardown block of HidGestureListener._main_loop: the
device handle is dropped, the REPROG_V4 feature index is cleared and the
held-state is reset; no other field is written. -/
def teardown (s : HGState) : HGState :=
  { s with dev := false, feat_idx := none, held := false }

/-! ## HID++ report parsing — src/hid_gesture.py, _parse (lines 45-64)

```python
def _parse(raw):
    if not raw or len(raw) < 4:
        return None
    off = 1 if raw[0] in (SHORT_ID, LONG_ID) else 0
    if off + 3 > len(raw):
        return None
    dev    = raw[off]
    feat   = raw[off + 1]
    fsw    = raw[off + 2]
    func   = (fsw >> 4) & 0x0F
    sw     = fsw & 0x0F
    params = raw[off + 3:]
    return dev, feat, func, sw, params
```
-/

/-- Parsed HID++ message: device index, feature index, function, software
tag, parameter bytes. -/
structure HppMsg where
  dev : Nat
  feat : Nat
  func : Nat
  sw : Nat
  params : List Nat
deriving DecidableEq, Repr

/-- Embedding of hid_gesture._parse: split a raw read buffer into
(device index, feature index, function, software tag, params), skipping a
leading report-ID byte when present. -/
def hppParse (raw : List Nat) : Option HppMsg :=
  if raw.length < 4 then none
  else
    let off : Nat := if raw.headD 0 = SHORT_ID ∨ raw.headD 0 = LONG_ID then 1 else 0
    if off + 3 > raw.length then none
    else
      let fsw := raw.getD (off + 2) 0
      some { dev := raw.getD off 0
             feat := raw.getD (off + 1) 0
             func := (fsw >>> 4) &&& 0x0F
             sw := fsw &&& 0x0F
             params := raw.drop (off + 3) }

/-! ## Request/response matching — src/hid_gesture.py, _request (lines 149-174)

The receive loop, with the stream of inbound reports up to the deadline
abstracted as a list (an exhausted list is the timeout):

```python
while time.time() < deadline:
    raw = self._rx(min(500, timeout_ms))
    if raw is None:
        continue
    msg = _parse(raw)
    if msg is None:
        continue
    _, r_feat, r_func, r_sw, r_params = msg
    if r_feat == 0xFF:           # HID++ error
        ...
        return None
    if r_feat == feat and r_sw == MY_SW:
        return msg
return None
```
-/

/-- Outcome of the _request receive loop: resolved by a matching response,
resolved as failed by an HID++ error report (feature-index byte 0xFF), or
timed out with the report stream exhausted. -/
inductive ReqOutcome where
  | matched (msg : HppMsg)
  | errorResp
  | timeout
deriving DecidableEq, Repr

/-- Embedding of the receive loop of HidGestureListener._request for a
request targeting feature index `feat` (the software tag of every request
is MY_SW). Reports are consumed in order until one resolves the request;
an empty remainder is the timeout. -/
def requestLoop (feat : Nat) : List (List Nat) → ReqOutcome
  | [] => ReqOutcome.timeout
  | raw :: rest =>
      match hppParse raw with
      | none => requestLoop feat rest
      | some msg =>
          if msg.feat = 0xFF then ReqOutcome.errorResp
          else if msg.feat = feat ∧ msg.sw = MY_SW then ReqOutcome.matched msg
          else requestLoop feat rest

/-- A raw buffer that cannot resolve a request for feature `feat`
according to the claim: it fails to parse, or it parses to a report that
is not the HID++ error marker and mismatches the request in feature index
or in software tag. -/
def mismatchedResp (feat : Nat) (raw : List Nat) : Bool :=
  match hppParse raw with
  | none => true
  | some msg => msg.feat != 0xFF && (msg.feat != feat || msg.sw != MY_SW)

/-! ## Notification CID decoding — src/hid_gesture.py, _on_report (lines 299-307)

```python
cids = set()
i = 0
while i + 1 < len(params):
    c = (params[i] << 8) | params[i + 1]
    if c == 0:
        break
    cids.add(c)
    i += 2
```

The source collects a set; the list below records the same identifiers in
insertion order (only membership is ever consulted).
-/

/-- Embedding of the CID-decoding loop of _on_report, index-based as in the
source: at index i, combine params[i] as high byte with params[i+1] as low
byte; stop at the 0x0000 sentinel or when fewer than two bytes remain. The
fuel argument only bounds the iteration count; params.length + 1 steps
always suffice because the index advances by two per step. -/
def decodeLoop : Nat → List Nat → Nat → List Nat
  | 0, _, _ => []
  | fuel + 1, params, i =>
      if i + 1 < params.length then
        let c := (params.getD i 0 <<< 8) ||| params.getD (i + 1) 0
        if c = 0 then []
        else c :: decodeLoop fuel params (i + 2)
      else []

/-- The control identifiers decoded from the parameter bytes of a
function-0 notification. -/
def decodeCids (params : List Nat) : List Nat :=
  decodeLoop (params.length + 1) params 0

/-- Spec-level decoder for the amended C4 statement: consume the parameter
bytes two at a time, each pair big-endian (first byte high-order), stopping
at the first 0x0000 pair or when fewer than two bytes remain. -/
def decodeCidsSpecBE : List Nat → List Nat
  | a :: b :: rest =>
      let c := (a <<< 8) ||| b
      if c = 0 then [] else c :: decodeCidsSpecBE rest
  | _ => []

/-- Decoder following the words of claim C4 (little-endian: the first byte
of each pair is the low-order byte of the identifier), for comparison with
the decoder embedded from the source. -/
def decodeCidsSpecLE : List Nat → List Nat
  | a :: b :: rest =>
      let c := a ||| (b <<< 8)
      if c = 0 then [] else c :: decodeCidsSpecLE rest
  | _ => []

/-! ## Gesture edge detection — src/hid_gesture.py, _on_report (lines 288-327)

```python
msg = _parse(raw)
if msg is None:
    return
_, feat, func, _sw, params = msg
if feat != self._feat_idx or func != 0:
    return
cids = ...decoded...
gesture_now = CID_GESTURE in cids
if gesture_now and not self._held:
    self._held = True
    ...fire on_down...
elif not gesture_now and self._held:
    self._held = False
    ...fire on_up...
```
-/

/-- Gesture events fired by the protocol client. -/
inductive GEvent where
  | down
  | up
deriving DecidableEq, Repr

/-- Embedding of HidGestureListener._on_report: given the discovered
REPROG_V4 feature index and the current held-state, process one raw report,
returning the new held-state and the gesture events fired (in order). -/
def onReportHG (feat_idx : Option Nat) (held : Bool) (raw : List Nat) :
    Bool × List GEvent :=
  match hppParse raw with
  | none => (held, [])
  | some msg =>
      if feat_idx ≠ some msg.feat ∨ msg.func ≠ 0 then (held, [])
      else
        let gesture_now := CID_GESTURE ∈ decodeCids msg.params
        if gesture_now ∧ ¬held then (true, [GEvent.down])
        else if ¬gesture_now ∧ held then (false, [GEvent.up])
        else (held, [])

/-- Process a sequence of raw reports through _on_report, threading the
held-state and concatenating fired events. -/
def runReports (feat_idx : Option Nat) : Bool → List (List Nat) → Bool × List GEvent
  | held, [] => (held, [])
  | held, raw :: rest =>
      let step := onReportHG feat_idx held raw
      let tail := runReports feat_idx step.1 rest
      (tail.1, step.2 ++ tail.2)

/-- A raw report that parses as a function-0 notification on feature index
f whose decoded identifier list contains the gesture CID. -/
def gestureNotif (f : Nat) (raw : List Nat) : Bool :=
  match hppParse raw with
  | none => false
  | some msg => msg.feat == f && msg.func == 0 && decide (CID_GESTURE ∈ decodeCids msg.params)

/-- A raw report that parses as a function-0 notification on feature index
f whose decoded identifier list does not contain the gesture CID. -/
def emptyNotif (f : Nat) (raw : List Nat) : Bool :=
  match hppParse raw with
  | none => false
  | some msg => msg.feat == f && msg.func == 0 && decide (CID_GESTURE ∉ decodeCids msg.params)

/-! ## Coalesced vertical-scroll inversion — src/core/mouse_hook.py

Filter branch (lines 334-344):

```python
elif wParam == WM_MOUSEWHEEL:
    if self.invert_vscroll:
        delta = hiword(mouse_data)
        if delta != 0:
            self._pending_vscroll += (-delta)
            if not self._vscroll_posted and self._ri_hwnd:
                self._vscroll_posted = True
                PostMessageW(..., WM_APP_INJECT_VSCROLL, 0, 0)
            return 1
```

Deferred window-message handler (lines 408-414):

```python
if msg == WM_APP_INJECT_VSCROLL:
    delta = self._pending_vscroll
    self._pending_vscroll = 0
    self._vscroll_posted = False
    if delta != 0:
        _inject_scroll_impl(MOUSEEVENTF_WHEEL, delta)
    return 0
```
-/

/-- Vertical scroll-inversion state of MouseHook: the accumulated inverted
delta, the queued-message flag, and whether the hidden window exists. -/
structure VScrollState where
  pending_vscroll : Int
  vscroll_posted : Bool
  ri_hwnd : Bool
deriving DecidableEq, Repr

/-- Result of one WM_MOUSEWHEEL tick through the filter callback: new
state, whether the original event was suppressed, and how many deferred
messages were posted (0 or 1). -/
def onVWheel (invert_vscroll : Bool) (mouse_data : Nat) (s : VScrollState) :
    VScrollState × Bool × Nat :=
  if invert_vscroll then
    let delta := hiword mouse_data
    if delta ≠ 0 then
      let s1 := { s with pending_vscroll := s.pending_vscroll + (-delta) }
      if ¬s1.vscroll_posted ∧ s1.ri_hwnd then
        ({ s1 with vscroll_posted := true }, true, 1)
      else (s1, true, 0)
    else (s, false, 0)
  else (s, false, 0)

/-- Process a sequence of WM_MOUSEWHEEL mouseData values through the filter
callback, counting the deferred messages posted. -/
def runVWheel (invert : Bool) : VScrollState → List Nat → VScrollState × Nat
  | s, [] => (s, 0)
  | s, d :: rest =>
      let step := onVWheel invert d s
      let tail := runVWheel invert step.1 rest
      (tail.1, step.2.2 + tail.2)

/-- Embedding of the WM_APP_INJECT_VSCROLL branch of MouseHook._ri_wndproc:
read and zero the accumulator, clear the queued flag, and synthesize one
wheel event with the read delta when it is non-zero. -/
def onInjectVScroll (s : VScrollState) : VScrollState × Option Int :=
  let delta := s.pending_vscroll
  let s1 := { s with pending_vscroll := 0, vscroll_posted := false }
  (s1, if delta ≠ 0 then some delta else none)

/-! ## Handler dispatch — src/core/mouse_hook.py, _dispatch (lines 264-270)

```python
def _dispatch(self, event):
    for cb in self._callbacks.get(event.event_type, []):
        try:
            cb(event)
        except Exception as e:
            print(f"[MouseHook] callback error: {e}")
```

A registered callback is modelled as an identifier together with a function
from the event payload to Except: a Python callback that raises is an
Except.error value. The per-iteration try/except makes each invocation
total, turning a raise into a logged entry.
-/

/-- A registered handler: an identifier and the effect of calling it on an
event payload (Except.error models a raised exception). -/
structure Handler where
  id : Nat
  run : Nat → Except String Unit

/-- One loop iteration of _dispatch: call the callback inside try/except;
a raise becomes a logged error entry instead of propagating. -/
def runCallback (e : Nat) (h : Handler) : Nat × Option String :=
  match h.run e with
  | Except.ok _ => (h.id, none)
  | Except.error m => (h.id, some m)

/-- Embedding of MouseHook._dispatch for one event kind: invoke every
registered callback in order; the result is a total log (no exception
escapes into the filter callback). -/
def dispatch (hs : List Handler) (e : Nat) : List (Nat × Option String) :=
  hs.map (runCallback e)

/-! ## Rewiring — src/engine.py, _setup_hooks (lines 38-82) and
src/core/mouse_hook.py, reset_bindings (lines 254-258)

```python
def reset_bindings(self):
    self._callbacks.clear()
    self._blocked_events.clear()
```

```python
middle_action = mappings.get("middle", "none")
gesture_action = mappings.get("gesture", "none")
gesture_uses_middle_fallback = (
    gesture_action != "none" and middle_action == "none"
)
for btn_key, action_id in mappings.items():
    if btn_key == "gesture":
        events = list(BUTTON_TO_EVENTS.get("gesture", ()))
        if gesture_uses_middle_fallback:
            events += list(BUTTON_TO_EVENTS.get("middle", ()))
    else:
        events = list(BUTTON_TO_EVENTS.get(btn_key, ()))
    for evt_type in events:
        if evt_type.endswith("_up"):
            if action_id != "none":
                self.hook.block(evt_type)
            continue
        if action_id != "none":
            self.hook.block(evt_type)
            if "hscroll" in evt_type:
                self.hook.register(evt_type, self._make_hscroll_handler(action_id))
            else:
                self.hook.register(evt_type, self._make_handler(action_id))
```

A registered closure is identified by the action it invokes, so the
callback table is modelled as the list of (event type, action id) pairs in
registration order; the blocked set as the list of blocked event types
(membership only).
-/

/-- BUTTON_TO_EVENTS from src/core/config.py (lines 25-32). -/
def BUTTON_TO_EVENTS (k : String) : List String :=
  if k = "middle" then ["middle_down", "middle_up"]
  else if k = "gesture" then ["gesture_down", "gesture_up"]
  else if k = "xbutton1" then ["xbutton1_down", "xbutton1_up"]
  else if k = "xbutton2" then ["xbutton2_down", "xbutton2_up"]
  else if k = "hscroll_left" then ["hscroll_left"]
  else if k = "hscroll_right" then ["hscroll_right"]
  else []

/-- evt_type.endswith of the literal under test in _setup_hooks. -/
def endsWithUp (evt : String) : Bool :=
  List.isSuffixOf "_up".data evt.data

/-- Binding table of MouseHook: registered (event type, action) pairs and
the blocked event types. -/
structure HookState where
  callbacks : List (String × String)
  blocked_events : List String
deriving DecidableEq, Repr

/-- Embedding of MouseHook.reset_bindings: clear both tables. -/
def reset_bindings (_s : HookState) : HookState :=
  { callbacks := [], blocked_events := [] }

/-- The inner loop body of _setup_hooks for one event type of a mapping
entry with the given action. -/
def processEvent (action_id : String) (s : HookState) (evt_type : String) : HookState :=
  if endsWithUp evt_type then
    if action_id ≠ "none" then { s with blocked_events := s.blocked_events ++ [evt_type] }
    else s
  else
    if action_id ≠ "none" then
      { callbacks := s.callbacks ++ [(evt_type, action_id)]
        blocked_events := s.blocked_events ++ [evt_type] }
    else s

/-- The outer loop body of _setup_hooks for one (btn_key, action_id) entry
of the active mapping, given the gesture-uses-middle-fallback flag. -/
def processEntry (fallback : Bool) (s : HookState) (entry : String × String) : HookState :=
  let events :=
    if entry.1 = "gesture" then
      BUTTON_TO_EVENTS "gesture" ++ (if fallback then BUTTON_TO_EVENTS "middle" else [])
    else BUTTON_TO_EVENTS entry.1
  events.foldl (processEvent entry.2) s

/-- mappings.get(key, "none") on the assoc-list model of the mapping dict. -/
def mappingGet (mappings : List (String × String)) (k : String) : String :=
  ((mappings.find? (fun p => p.1 == k)).map Prod.snd).getD "none"

/-- Embedding of Engine._setup_hooks over a mapping: compute the fallback
flag, then process every entry in order. -/
def setup_hooks (mappings : List (String × String)) (s : HookState) : HookState :=
  let middle_action := mappingGet mappings "middle"
  let gesture_action := mappingGet mappings "gesture"
  let fallback := gesture_action ≠ "none" ∧ middle_action = "none"
  mappings.foldl (processEntry (decide fallback)) s

/-- The rewiring algorithm as run by Engine._switch_profile and
Engine.reload_mappings: reset_bindings followed by _setup_hooks. -/
def rewire (s : HookState) (mappings : List (String × String)) : HookState :=
  setup_hooks mappings (reset_bindings s)

/-- The mapping dict of a profile in the shape produced by the
configuration module (DEFAULT_CONFIG in src/core/config.py): one action
per button key, in insertion order. -/
def canonicalMapping (m g x1 x2 hl hr : String) : List (String × String) :=
  [("middle", m), ("gesture", g), ("xbutton1", x1), ("xbutton2", x2),
   ("hscroll_left", hl), ("hscroll_right", hr)]

/-! ## Profile selection — src/core/config.py, get_profile_for_app (lines 161-166)

```python
def get_profile_for_app(cfg, exe_name):
    for pname, pdata in cfg.get("profiles", {}).items():
        if exe_name and exe_name.lower() in [a.lower() for a in pdata.get("apps", [])]:
            return pname
    return "default"
```

Executable and profile names are modelled as lists of characters; .lower()
as a character-wise lowercase map.
-/

/-- Character-wise lowercasing, the model of Python str.lower(). -/
def lowerName (s : List Char) : List Char :=
  s.map Char.toLower

/-- Embedding of get_profile_for_app: profiles are an ordered list of
(name, application list); return the first profile whose lowercased
application list contains the lowercased executable name (the empty name
matches nothing), falling back to "default". -/
def get_profile_for_app (profiles : List (List Char × List (List Char)))
    (exe_name : List Char) : List Char :=
  match profiles.find?
      (fun p => decide (exe_name ≠ []) && decide (lowerName exe_name ∈ p.2.map lowerName)) with
  | some p => p.1
  | none => "default".data

/-! ## Helper lemmas -/

/-- The index-based decoding loop computes the structural big-endian
pair decoding of the remaining bytes, given enough fuel. -/
lemma decodeLoop_eq_spec (fuel : Nat) (params : List Nat) (i : Nat)
    (h : params.length ≤ i + 2 * fuel) :
    decodeLoop fuel params i = decodeCidsSpecBE (params.drop i) := by
  induction fuel generalizing i with
  | zero =>
    rw [List.drop_eq_nil_of_le (by omega)]
    rfl
  | succ fuel ih =>
    by_cases hlt : i + 1 < params.length
    · have hi : i < params.length := by omega
      have hd1 : params.drop i = params.getD i 0 :: params.drop (i + 1) := by
        rw [List.getD_eq_getElem params 0 hi]
        exact List.drop_eq_getElem_cons hi
      have hd2 : params.drop (i + 1) = params.getD (i + 1) 0 :: params.drop (i + 2) := by
        rw [List.getD_eq_getElem params 0 hlt]
        exact List.drop_eq_getElem_cons hlt
      rw [hd1, hd2]
      simp only [decodeLoop, decodeCidsSpecBE, if_pos hlt]
      rw [ih (i + 2) (by omega)]
    · have hnil : decodeCidsSpecBE (params.drop i) = [] := by
        have hlen : (params.drop i).length ≤ 1 := by
          rw [List.length_drop]
          omega
        cases hdrop : params.drop i with
        | nil => rfl
        | cons a t =>
          cases t with
          | nil => rfl
          | cons b t2 =>
            rw [hdrop] at hlen
            simp at hlen
      rw [hnil]
      simp [decodeLoop, hlt]

/-! ## Claim theorems -/

/-- C1 counterexample: with vertical inversion enabled and the hidden
window present, inverted ticks +3, −5, +1 accumulated before the queued
re-injection fires make the deferred handler synthesize a wheel event of
delta +1, not −1 as the claim states. -/
theorem vscroll_flush_claimed_delta_false :
    (onInjectVScroll
      (runVWheel true ⟨0, false, true⟩ [3 <<< 16, 0xFFFB0000, 1 <<< 16]).1).2 = some 1 ∧
    some (1 : Int) ≠ some (-1 : Int) := by
  constructor
  · rfl
  · decide

/-- C1 (amended): with vertical inversion enabled, for the tick sequence
+3, −5, +1 all processed by the filter callback before the queued
re-injection message is handled, exactly one deferred message is posted,
the handler synthesizes exactly one wheel event whose delta is +1 (the sum
of the negated deltas), and the vertical accumulator and the queued flag
are zero and cleared immediately after the handler runs. Each tick is
presented as the mouseData DWORD whose high word encodes the delta. -/
theorem vscroll_flush_single_event :
    (runVWheel true ⟨0, false, true⟩ [3 <<< 16, 0xFFFB0000, 1 <<< 16]).2 = 1 ∧
    (onInjectVScroll
      (runVWheel true ⟨0, false, true⟩ [3 <<< 16, 0xFFFB0000, 1 <<< 16]).1).2 = some 1 ∧
    (onInjectVScroll
      (runVWheel true ⟨0, false, true⟩ [3 <<< 16, 0xFFFB0000, 1 <<< 16]).1).1.pending_vscroll = 0 ∧
    (onInjectVScroll
      (runVWheel true ⟨0, false, true⟩ [3 <<< 16, 0xFFFB0000, 1 <<< 16]).1).1.vscroll_posted = false := by
  refine ⟨rfl, rfl, rfl, rfl⟩

/-- C2: the clamp in HidGestureListener.set_dpi uses 8200 as the upper
bound, although the comment on the very line says the device maximum is
8000 and the specification states the interval [200, 8000]. At the request
8100 the queued (and later transmitted) value is 8100, where the claim
requires max(200, min(8000, 8100)) = 8000. -/
theorem set_dpi_clamp_bug :
    set_dpi_clamp 8100 = 8100 ∧
    max 200 (min 8000 (8100 : Int)) = 8000 ∧
    (8100 : Int) ≠ 8000 ∧
    dpiSetParams 8100 = [0x00, 0x1F, 0xA4] := by
  refine ⟨rfl, rfl, by decide, rfl⟩

/-- C4 counterexample: the decoding loop of _on_report combines each byte
pair big-endian: on parameter bytes [1, 2, 0, 0] it yields the identifier
0x0102 = 258, while the little-endian decoding stated by the claim would
yield 0x0201 = 513. -/
theorem decode_cids_not_little_endian :
    decodeCids [1, 2, 0, 0] = [258] ∧
    decodeCidsSpecLE [1, 2, 0, 0] = [513] ∧
    (258 : Nat) ≠ 513 := by
  refine ⟨rfl, rfl, by decide⟩

/-- C4 (amended): the parameter bytes of a function-0 notification are
decoded as a list of big-endian 16-bit control identifiers terminated by a
zero sentinel: for each byte pair the first byte is the high-order byte,
and decoding stops at the first 0x0000 pair (or when fewer than two bytes
remain). -/
theorem decode_cids_big_endian (params : List Nat) :
    decodeCids params = decodeCidsSpecBE params := by
  have h := decodeLoop_eq_spec (params.length + 1) params 0 (by omega)
  simpa using h

/-- C5 counterexample: the teardown path that runs before the backoff
delay leaves the DPI feature index discovered in the previous session in
place: from a session with REPROG_V4 at index 5 and ADJUSTABLE_DPI at
index 7, teardown keeps dpi_idx = some 7 instead of clearing it. -/
theorem teardown_keeps_dpi_index :
    (teardown ⟨true, some 5, some 7, true⟩).dpi_idx = some 7 ∧
    some 7 ≠ (none : Option Nat) := by
  refine ⟨rfl, by decide⟩

/-- C5 (amended): after any failed listen session, the teardown path that
runs before the backoff delay drops the device handle, clears the
reprogrammable-controls feature index and resets the gesture held-state to
false; the DPI feature index is left unchanged. -/
theorem teardown_clears_feat_and_held (s : HGState) :
    (teardown s).feat_idx = none ∧
    (teardown s).held = false ∧
    (teardown s).dev = false ∧
    (teardown s).dpi_idx = s.dpi_idx := by
  refine ⟨rfl, rfl, rfl, rfl⟩

/-- C3 counterexample: an HID++ error report (feature-index byte 0xFF)
resolves a pending request for feature index 5 as failed, although its
feature index 0xFF differs from the request and its software tag 0 differs
from the caller tag MY_SW = 0x0A — contradicting the claim that only an
exact match or a timeout resolves the request. -/
theorem request_error_report_resolves :
    requestLoop 5 [[0x11, 0xFF, 0xFF, 0x00, 0x00, 0x02]] = ReqOutcome.errorResp ∧
    (hppParse [0x11, 0xFF, 0xFF, 0x00, 0x00, 0x02]).map HppMsg.feat = some 0xFF ∧
    (hppParse [0x11, 0xFF, 0xFF, 0x00, 0x00, 0x02]).map HppMsg.sw = some 0 ∧
    (0xFF : Nat) ≠ 5 ∧ (0 : Nat) ≠ MY_SW ∧
    ReqOutcome.errorResp ≠ ReqOutcome.timeout ∧
    (∀ msg, ReqOutcome.errorResp ≠ ReqOutcome.matched msg) := by
  refine ⟨rfl, rfl, rfl, by decide, by decide, by decide, fun msg h => by cases h⟩

/-- C3 (amended): while a request is pending, an inbound report that fails
to parse, or that parses with a feature index that is neither the error
marker 0xFF nor matching the request, or with a software tag differing
from the caller tag, never resolves the pending request: the receive loop
skips it and behaves as on the remaining stream. The request resolves only
on a report matching both feature index and tag, on an HID++ error report
(feature-index byte 0xFF), or on timeout expiry. -/
theorem request_mismatch_skipped (feat : Nat) (raw : List Nat)
    (rest : List (List Nat)) (h : mismatchedResp feat raw = true) :
    requestLoop feat (raw :: rest) = requestLoop feat rest ∧
    requestLoop feat [] = ReqOutcome.timeout := by
  refine ⟨?_, rfl⟩
  unfold mismatchedResp at h
  cases hp : hppParse raw with
  | none => rw [requestLoop, hp]
  | some msg =>
    rw [hp] at h
    simp only [Bool.and_eq_true, bne_iff_ne, ne_eq, Bool.or_eq_true] at h
    obtain ⟨hferr, hmm⟩ := h
    have hcond : ¬(msg.feat = feat ∧ msg.sw = MY_SW) := by
      intro hand
      rcases hmm with hf | hs
      · exact hf hand.1
      · exact hs hand.2
    rw [requestLoop, hp]
    dsimp only
    rw [if_neg hferr, if_neg hcond]

/-- C3 witness: a concrete mismatched report (feature index 7, software
tag 0) ahead of an empty remainder is skipped and the request times out. -/
theorem request_mismatch_skipped_witness :
    requestLoop 5 [[0x11, 0xFF, 0x07, 0x00, 0x00]] = ReqOutcome.timeout :=
  (request_mismatch_skipped 5 [0x11, 0xFF, 0x07, 0x00, 0x00] [] (by decide)).1

/-- A report recognized as a gesture-containing notification sets the
held-state and fires gesture-down exactly when not already held. -/
lemma onReport_gesture (f : Nat) (held : Bool) (raw : List Nat)
    (h : gestureNotif f raw = true) :
    onReportHG (some f) held raw = (true, if held then [] else [GEvent.down]) := by
  unfold gestureNotif at h
  cases hp : hppParse raw with
  | none =>
    rw [hp] at h
    exact absurd h (by simp)
  | some msg =>
    rw [hp] at h
    simp only [Bool.and_eq_true, beq_iff_eq, decide_eq_true_eq] at h
    obtain ⟨⟨hf, h0⟩, hmem⟩ := h
    unfold onReportHG
    rw [hp]
    cases held <;> simp [hf, h0, hmem]

/-- A report recognized as a notification without the gesture identifier
clears the held-state and fires gesture-up exactly when held. -/
lemma onReport_empty (f : Nat) (held : Bool) (raw : List Nat)
    (h : emptyNotif f raw = true) :
    onReportHG (some f) held raw = (false, if held then [GEvent.up] else []) := by
  unfold emptyNotif at h
  cases hp : hppParse raw with
  | none =>
    rw [hp] at h
    exact absurd h (by simp)
  | some msg =>
    rw [hp] at h
    simp only [Bool.and_eq_true, beq_iff_eq, decide_eq_true_eq] at h
    obtain ⟨⟨hf, h0⟩, hmem⟩ := h
    unfold onReportHG
    rw [hp]
    cases held <;> simp [hf, h0, hmem]

/-- While held, a run of gesture-containing notifications fires nothing
and leaves the held-state set. -/
lemma runReports_held_all (f : Nat) (raws : List (List Nat))
    (h : ∀ r ∈ raws, gestureNotif f r = true) :
    runReports (some f) true raws = (true, []) := by
  induction raws with
  | nil => rfl
  | cons r rest ih =>
    have h1 := onReport_gesture f true r (h r (by simp))
    simp only [if_pos rfl, if_true] at h1
    have h2 := ih (fun x hx => h x (by simp [hx]))
    simp [runReports, h1, h2]

/-- runReports distributes over list append. -/
lemma runReports_append (fi : Option Nat) (held : Bool) (l1 l2 : List (List Nat)) :
    runReports fi held (l1 ++ l2) =
      ((runReports fi (runReports fi held l1).1 l2).1,
       (runReports fi held l1).2 ++ (runReports fi (runReports fi held l1).1 l2).2) := by
  induction l1 generalizing held with
  | nil => simp [runReports]
  | cons r rest ih => simp [runReports, ih, List.append_assoc]

/-- C6: starting from the released state, a burst of N ≥ 1 consecutive
notification reports each containing the gesture control identifier,
followed by the first report not containing it, produces exactly the event
sequence [gesture-down, gesture-up]: one down for the whole burst, one up
on the first report without the identifier, ending released. -/
theorem gesture_edges_fire_once (f : Nat) (r0 : List Nat)
    (raws : List (List Nat)) (rEnd : List Nat)
    (h0 : gestureNotif f r0 = true)
    (hall : ∀ r ∈ raws, gestureNotif f r = true)
    (hend : emptyNotif f rEnd = true) :
    runReports (some f) false (r0 :: (raws ++ [rEnd])) = (false, [GEvent.down, GEvent.up]) := by
  have hstep0 := onReport_gesture f false r0 h0
  simp only [if_neg (by simp : ¬False), Bool.false_eq_true, if_false] at hstep0
  have hmid := runReports_held_all f raws hall
  have he := onReport_empty f true rEnd hend
  simp only [if_pos rfl, if_true] at he
  simp [runReports, hstep0, runReports_append, hmid, he]

/-- C6 witness: with REPROG_V4 at feature index 9, two notifications
listing CID 0x00C3 followed by one listing no control fire exactly one
gesture-down and one gesture-up. -/
theorem gesture_edges_fire_once_witness :
    runReports (some 9) false
      ([0x11, 0xFF, 9, 0x00, 0x00, 0xC3, 0x00, 0x00] ::
        ([[0x11, 0xFF, 9, 0x00, 0x00, 0xC3, 0x00, 0x00]] ++
          [[0x11, 0xFF, 9, 0x00, 0x00, 0x00]])) = (false, [GEvent.down, GEvent.up]) :=
  gesture_edges_fire_once 9 _ _ _ (by decide) (by decide) (by decide)

/-- Each loop iteration of _dispatch reports the identifier of the
callback it invoked, whether or not the callback raised. -/
lemma runCallback_fst (e : Nat) (h : Handler) : (runCallback e h).1 = h.id := by
  unfold runCallback
  cases h.run e <;> rfl

/-- C9: if one registered handler raises, dispatch still invokes every
remaining handler for that event kind in order — the failing handler
contributes a logged error entry, the handlers after it run unchanged, and
the invocation order over the whole list is the registration order. The
dispatch routine is a total function into a log, so no exception
propagates into the filter callback. -/
theorem dispatch_isolates_failures (pre post : List Handler) (i : Nat)
    (f : Nat → Except String Unit) (e : Nat) (m : String)
    (hf : f e = Except.error m) :
    dispatch (pre ++ ⟨i, f⟩ :: post) e
      = dispatch pre e ++ (i, some m) :: dispatch post e ∧
    (dispatch (pre ++ ⟨i, f⟩ :: post) e).map Prod.fst
      = (pre ++ ⟨i, f⟩ :: post).map Handler.id := by
  constructor
  · simp [dispatch, runCallback, hf]
  · simp [dispatch, List.map_map, Function.comp_def, runCallback_fst]

/-- C9 witness: a handler that raises between two succeeding handlers is
logged while both neighbours are still invoked, in order. -/
theorem dispatch_isolates_failures_witness :
    dispatch ([⟨0, fun _ => Except.ok ()⟩] ++
        ⟨1, fun _ => Except.error "boom"⟩ :: [⟨2, fun _ => Except.ok ()⟩]) 7
      = dispatch [⟨0, fun _ => Except.ok ()⟩] 7 ++
        (1, some "boom") :: dispatch [⟨2, fun _ => Except.ok ()⟩] 7 :=
  (dispatch_isolates_failures [⟨0, fun _ => Except.ok ()⟩] [⟨2, fun _ => Except.ok ()⟩]
    1 (fun _ => Except.error "boom") 7 "boom" rfl).1

/-- Masking with 0xFFFF is reduction modulo 2^16. -/
lemma and_FFFF_eq_mod (n : Nat) : n &&& 0xFFFF = n % 65536 := by
  have h16 : (0xFFFF : Nat) = 2 ^ 16 - 1 := by norm_num
  rw [h16, Nat.and_pow_two_sub_one_eq_mod]

/-- C10: hiword(d) is the high 16 bits of d read as a signed 16-bit
integer: it lies in [−32768, 32767], is congruent to the high word modulo
2^16, and is the unique such integer; a high word ≥ 0x8000 yields a
negative value; and the side-button selector compared against the XBUTTON1
and XBUTTON2 flags in the WM_XBUTTONDOWN branch is exactly this
sign-extended value. -/
theorem hiword_signed16 (d : Nat) :
    (-32768 ≤ hiword d ∧ hiword d ≤ 32767) ∧
    hiword d % 65536 = ((d >>> 16) % 65536 : Nat) ∧
    (∀ x : Int, -32768 ≤ x → x ≤ 32767 →
      x % 65536 = ((d >>> 16) % 65536 : Nat) → x = hiword d) ∧
    (0x8000 ≤ (d >>> 16) &&& 0xFFFF → hiword d < 0) ∧
    (xbuttonEvent true d = some "xbutton1_down" ↔ hiword d = XBUTTON1) ∧
    (xbuttonEvent true d = some "xbutton2_down" ↔ hiword d = XBUTTON2) := by
  have hw : hiword d =
      if (d >>> 16) % 65536 ≥ 0x8000 then (((d >>> 16) % 65536 : Nat) : Int) - 0x10000
      else (((d >>> 16) % 65536 : Nat) : Int) := by
    unfold hiword
    rw [and_FFFF_eq_mod]
  have hvlt : (d >>> 16) % 65536 < 65536 := Nat.mod_lt _ (by norm_num)
  have hx1 : xbuttonEvent true d = some "xbutton1_down" ↔ hiword d = XBUTTON1 := by
    unfold xbuttonEvent
    by_cases h1 : hiword d = XBUTTON1
    · simp [h1]
    · by_cases h2 : hiword d = XBUTTON2
      · simp [h1, h2]
      · simp [h1, h2]
  have hx2 : xbuttonEvent true d = some "xbutton2_down" ↔ hiword d = XBUTTON2 := by
    unfold xbuttonEvent
    by_cases h1 : hiword d = XBUTTON1
    · rw [h1] at *
      simp [h1]
      decide
    · by_cases h2 : hiword d = XBUTTON2
      · simp [h1, h2]
        decide
      · simp [h1, h2]
  refine ⟨?_, ?_, ?_, ?_, hx1, hx2⟩
  · rw [hw]
    split_ifs with h8 <;> omega
  · rw [hw]
    split_ifs with h8 <;> omega
  · intro x hlo hhi hcong
    rw [hw]
    split_ifs with h8 <;> omega
  · rw [and_FFFF_eq_mod, hw]
    intro h8
    rw [if_pos h8]
    omega

/-- C10 witness: at d = 0x80010000 the uniqueness clause forces
hiword d = −32767, exhibiting the sign extension of a high word ≥ 0x8000. -/
theorem hiword_signed16_witness : (-32767 : Int) = hiword 0x80010000 :=
  (hiword_signed16 0x80010000).2.2.1 (-32767) (by decide) (by decide) (by decide)

/-- find? only depends on the pointwise values of its predicate. -/
lemma find?_pred_ext {α : Type} (l : List α) (p q : α → Bool)
    (h : ∀ x ∈ l, p x = q x) : l.find? p = l.find? q := by
  induction l with
  | nil => rfl
  | cons a t ih =>
    rw [List.find?_cons, List.find?_cons, h a (by simp)]
    cases q a with
    | true => rfl
    | false => exact ih (fun x hx => h x (by simp [hx]))

/-- C8: profile selection compares the foreground executable name
case-insensitively — the selected profile depends only on the lowercased
name — and returns the default profile whenever no profile application
list contains the name (in lowercase), including for the empty name. -/
theorem profile_selection_case_insensitive_default
    (profiles : List (List Char × List (List Char))) :
    (∀ e1 e2 : List Char, lowerName e1 = lowerName e2 →
      get_profile_for_app profiles e1 = get_profile_for_app profiles e2) ∧
    (∀ exe : List Char, (∀ p ∈ profiles, lowerName exe ∉ p.2.map lowerName) →
      get_profile_for_app profiles exe = "default".data) ∧
    get_profile_for_app profiles [] = "default".data := by
  refine ⟨?_, ?_, ?_⟩
  · intro e1 e2 hlow
    have hempty : (e1 = []) ↔ (e2 = []) := by
      constructor
      · intro h1
        have : lowerName e2 = [] := by rw [← hlow, h1]; rfl
        exact List.map_eq_nil_iff.mp this
      · intro h2
        have : lowerName e1 = [] := by rw [hlow, h2]; rfl
        exact List.map_eq_nil_iff.mp this
    have hfind : profiles.find?
        (fun p => decide (e1 ≠ []) && decide (lowerName e1 ∈ p.2.map lowerName))
        = profiles.find?
          (fun p => decide (e2 ≠ []) && decide (lowerName e2 ∈ p.2.map lowerName)) := by
      apply find?_pred_ext
      intro p _
      rw [hlow, decide_eq_decide.mpr (not_congr hempty)]
    unfold get_profile_for_app
    rw [hfind]
  · intro exe hni
    unfold get_profile_for_app
    have : profiles.find?
        (fun p => decide (exe ≠ []) && decide (lowerName exe ∈ p.2.map lowerName)) = none := by
      rw [List.find?_eq_none]
      intro p hp
      simp [hni p hp]
    rw [this]
  · unfold get_profile_for_app
    have : profiles.find?
        (fun p => decide (([] : List Char) ≠ []) &&
          decide (lowerName [] ∈ p.2.map lowerName)) = none := by
      rw [List.find?_eq_none]
      intro p hp
      simp
    rw [this]

/-- C8 witness: with a profile listing the application "ABC.exe", the
names "abc.EXE" and "Abc.exe" select the same profile, an unlisted name
selects the default profile, and so does the empty name. -/
theorem profile_selection_witness :
    get_profile_for_app [("p".data, ["ABC.exe".data])] "abc.EXE".data
      = get_profile_for_app [("p".data, ["ABC.exe".data])] "Abc.exe".data ∧
    get_profile_for_app [("p".data, ["ABC.exe".data])] "other.exe".data = "default".data := by
  constructor
  · exact (profile_selection_case_insensitive_default
      [("p".data, ["ABC.exe".data])]).1 "abc.EXE".data "Abc.exe".data (by decide)
  · exact (profile_selection_case_insensitive_default
      [("p".data, ["ABC.exe".data])]).2.1 "other.exe".data (by decide)

/-! Evaluations of the suffix test on the event names of the binding
table. -/

lemma ewu_middle_down : endsWithUp "middle_down" = false := by decide

lemma ewu_middle_up : endsWithUp "middle_up" = true := by decide

lemma ewu_gesture_down : endsWithUp "gesture_down" = false := by decide

lemma ewu_gesture_up : endsWithUp "gesture_up" = true := by decide

lemma ewu_xbutton1_down : endsWithUp "xbutton1_down" = false := by decide

lemma ewu_xbutton1_up : endsWithUp "xbutton1_up" = true := by decide

lemma ewu_xbutton2_down : endsWithUp "xbutton2_down" = false := by decide

lemma ewu_xbutton2_up : endsWithUp "xbutton2_up" = true := by decide

/-- processEvent only appends to the callback table. -/
lemma processEvent_mem_callbacks (a : String) (s : HookState) (e : String)
    (p : String × String) (h : p ∈ s.callbacks) :
    p ∈ (processEvent a s e).callbacks := by
  unfold processEvent
  split_ifs <;> simp [h]

/-- processEvent only appends to the blocked set. -/
lemma processEvent_mem_blocked (a : String) (s : HookState) (e : String)
    (x : String) (h : x ∈ s.blocked_events) :
    x ∈ (processEvent a s e).blocked_events := by
  unfold processEvent
  split_ifs <;> simp [h]

/-- Folding processEvent over any event list preserves callback entries. -/
lemma foldl_processEvent_mem_callbacks (a : String) (events : List String)
    (s : HookState) (p : String × String) (h : p ∈ s.callbacks) :
    p ∈ (events.foldl (processEvent a) s).callbacks := by
  induction events generalizing s with
  | nil => exact h
  | cons e rest ih => exact ih _ (processEvent_mem_callbacks a s e p h)

/-- Folding processEvent over any event list preserves blocked entries. -/
lemma foldl_processEvent_mem_blocked (a : String) (events : List String)
    (s : HookState) (x : String) (h : x ∈ s.blocked_events) :
    x ∈ (events.foldl (processEvent a) s).blocked_events := by
  induction events generalizing s with
  | nil => exact h
  | cons e rest ih => exact ih _ (processEvent_mem_blocked a s e x h)

/-- processEntry preserves callback entries. -/
lemma processEntry_mem_callbacks (fb : Bool) (s : HookState) (entry : String × String)
    (p : String × String) (h : p ∈ s.callbacks) :
    p ∈ (processEntry fb s entry).callbacks :=
  foldl_processEvent_mem_callbacks _ _ _ _ h

/-- processEntry preserves blocked entries. -/
lemma processEntry_mem_blocked (fb : Bool) (s : HookState) (entry : String × String)
    (x : String) (h : x ∈ s.blocked_events) :
    x ∈ (processEntry fb s entry).blocked_events :=
  foldl_processEvent_mem_blocked _ _ _ _ h

/-- Folding processEntry over any entry list preserves callback entries. -/
lemma entries_mem_callbacks (fb : Bool) (entries : List (String × String))
    (s : HookState) (p : String × String) (h : p ∈ s.callbacks) :
    p ∈ (entries.foldl (processEntry fb) s).callbacks := by
  induction entries generalizing s with
  | nil => exact h
  | cons e rest ih => exact ih _ (processEntry_mem_callbacks fb s e p h)

/-- Folding processEntry over any entry list preserves blocked entries. -/
lemma entries_mem_blocked (fb : Bool) (entries : List (String × String))
    (s : HookState) (x : String) (h : x ∈ s.blocked_events) :
    x ∈ (entries.foldl (processEntry fb) s).blocked_events := by
  induction entries generalizing s with
  | nil => exact h
  | cons e rest ih => exact ih _ (processEntry_mem_blocked fb s e x h)

/-- Effect of one mapping entry for the middle button with a mapped
action: both edges blocked, a handler registered on the down edge only. -/
lemma processEntry_middle (fb : Bool) (s : HookState) (a : String) (ha : a ≠ "none") :
    processEntry fb s ("middle", a) =
      ⟨s.callbacks ++ [("middle_down", a)],
       s.blocked_events ++ ["middle_down", "middle_up"]⟩ := by
  simp [processEntry, BUTTON_TO_EVENTS, processEvent, ewu_middle_down, ewu_middle_up, ha]

/-- Effect of one mapping entry for the gesture control with a mapped
action: the gesture edges are blocked and gesture-down is registered;
under the middle fallback the middle edges are additionally blocked and
middle-down is bound to the gesture action. -/
lemma processEntry_gesture (fb : Bool) (s : HookState) (a : String) (ha : a ≠ "none") :
    processEntry fb s ("gesture", a) =
      ⟨s.callbacks ++ ([("gesture_down", a)] ++ (if fb then [("middle_down", a)] else [])),
       s.blocked_events ++ (["gesture_down", "gesture_up"] ++
         (if fb then ["middle_down", "middle_up"] else []))⟩ := by
  cases fb <;>
    simp [processEntry, BUTTON_TO_EVENTS, processEvent, ewu_gesture_down, ewu_gesture_up,
      ewu_middle_down, ewu_middle_up, ha]

/-- Effect of one mapping entry for side button 1 with a mapped action. -/
lemma processEntry_xbutton1 (fb : Bool) (s : HookState) (a : String) (ha : a ≠ "none") :
    processEntry fb s ("xbutton1", a) =
      ⟨s.callbacks ++ [("xbutton1_down", a)],
       s.blocked_events ++ ["xbutton1_down", "xbutton1_up"]⟩ := by
  simp [processEntry, BUTTON_TO_EVENTS, processEvent, ewu_xbutton1_down, ewu_xbutton1_up, ha]

/-- Effect of one mapping entry for side button 2 with a mapped action. -/
lemma processEntry_xbutton2 (fb : Bool) (s : HookState) (a : String) (ha : a ≠ "none") :
    processEntry fb s ("xbutton2", a) =
      ⟨s.callbacks ++ [("xbutton2_down", a)],
       s.blocked_events ++ ["xbutton2_down", "xbutton2_up"]⟩ := by
  simp [processEntry, BUTTON_TO_EVENTS, processEvent, ewu_xbutton2_down, ewu_xbutton2_up, ha]

/-- processEvent never registers a handler on an up-edge event. -/
lemma processEvent_no_up (a : String) (s : HookState) (e : String)
    (h : ∀ p ∈ s.callbacks, endsWithUp p.1 = false) :
    ∀ p ∈ (processEvent a s e).callbacks, endsWithUp p.1 = false := by
  unfold processEvent
  split_ifs with h1 h2 h3
  · exact h
  · exact h
  · intro p hp
    rcases List.mem_append.mp hp with hold | hnew
    · exact h p hold
    · have : p = (e, a) := by simpa using hnew
      rw [this]
      simpa using h1
  · exact h

/-- The up-edge-free invariant is preserved by folding processEvent. -/
lemma foldl_processEvent_no_up (a : String) (events : List String) (s : HookState)
    (h : ∀ p ∈ s.callbacks, endsWithUp p.1 = false) :
    ∀ p ∈ (events.foldl (processEvent a) s).callbacks, endsWithUp p.1 = false := by
  induction events generalizing s with
  | nil => exact h
  | cons e rest ih => exact ih _ (processEvent_no_up a s e h)

/-- The up-edge-free invariant is preserved by folding processEntry. -/
lemma entries_no_up (fb : Bool) (entries : List (String × String)) (s : HookState)
    (h : ∀ p ∈ s.callbacks, endsWithUp p.1 = false) :
    ∀ p ∈ (entries.foldl (processEntry fb) s).callbacks, endsWithUp p.1 = false := by
  induction entries generalizing s with
  | nil => exact h
  | cons e rest ih => exact ih _ (foldl_processEvent_no_up _ _ _ h)

/-- C7: the rewiring algorithm first clears both tables — its result is
independent of the prior binding state — then, for every button of the
profile mapping whose action is not pass-through ("none"), blocks that
button's down and up OS events and registers the action on the down edge;
when the gesture control has an action and the middle button is
pass-through, middle_down and middle_up are additionally blocked and
middle_down is bound to the gesture action; and no handler is ever
registered on an up edge. -/
theorem rewire_blocks_and_registers (prior : HookState) (m g x1 x2 hl hr : String) :
    (∀ prior2 : HookState,
      rewire prior (canonicalMapping m g x1 x2 hl hr)
        = rewire prior2 (canonicalMapping m g x1 x2 hl hr)) ∧
    (m ≠ "none" →
      "middle_down" ∈ (rewire prior (canonicalMapping m g x1 x2 hl hr)).blocked_events ∧
      "middle_up" ∈ (rewire prior (canonicalMapping m g x1 x2 hl hr)).blocked_events ∧
      ("middle_down", m) ∈ (rewire prior (canonicalMapping m g x1 x2 hl hr)).callbacks) ∧
    (g ≠ "none" →
      "gesture_down" ∈ (rewire prior (canonicalMapping m g x1 x2 hl hr)).blocked_events ∧
      "gesture_up" ∈ (rewire prior (canonicalMapping m g x1 x2 hl hr)).blocked_events ∧
      ("gesture_down", g) ∈ (rewire prior (canonicalMapping m g x1 x2 hl hr)).callbacks) ∧
    (x1 ≠ "none" →
      "xbutton1_down" ∈ (rewire prior (canonicalMapping m g x1 x2 hl hr)).blocked_events ∧
      "xbutton1_up" ∈ (rewire prior (canonicalMapping m g x1 x2 hl hr)).blocked_events ∧
      ("xbutton1_down", x1) ∈ (rewire prior (canonicalMapping m g x1 x2 hl hr)).callbacks) ∧
    (x2 ≠ "none" →
      "xbutton2_down" ∈ (rewire prior (canonicalMapping m g x1 x2 hl hr)).blocked_events ∧
      "xbutton2_up" ∈ (rewire prior (canonicalMapping m g x1 x2 hl hr)).blocked_events ∧
      ("xbutton2_down", x2) ∈ (rewire prior (canonicalMapping m g x1 x2 hl hr)).callbacks) ∧
    (g ≠ "none" → m = "none" →
      "middle_down" ∈ (rewire prior (canonicalMapping m g x1 x2 hl hr)).blocked_events ∧
      "middle_up" ∈ (rewire prior (canonicalMapping m g x1 x2 hl hr)).blocked_events ∧
      ("middle_down", g) ∈ (rewire prior (canonicalMapping m g x1 x2 hl hr)).callbacks) ∧
    (∀ p ∈ (rewire prior (canonicalMapping m g x1 x2 hl hr)).callbacks,
      endsWithUp p.1 = false) := by
  have hrw : rewire prior (canonicalMapping m g x1 x2 hl hr)
      = List.foldl (processEntry (decide (g ≠ "none" ∧ m = "none"))) ⟨[], []⟩
          (canonicalMapping m g x1 x2 hl hr) := rfl
  refine ⟨fun pr2 => rfl, ?_, ?_, ?_, ?_, ?_, ?_⟩
  · intro hm
    rw [hrw]
    simp only [canonicalMapping]
    rw [List.foldl_cons, processEntry_middle _ _ _ hm]
    exact ⟨entries_mem_blocked _ _ _ _ (by simp),
      entries_mem_blocked _ _ _ _ (by simp),
      entries_mem_callbacks _ _ _ _ (by simp)⟩
  · intro hg
    rw [hrw]
    simp only [canonicalMapping]
    rw [List.foldl_cons, List.foldl_cons, processEntry_gesture _ _ _ hg]
    exact ⟨entries_mem_blocked _ _ _ _ (by simp),
      entries_mem_blocked _ _ _ _ (by simp),
      entries_mem_callbacks _ _ _ _ (by simp)⟩
  · intro hx1
    rw [hrw]
    simp only [canonicalMapping]
    rw [List.foldl_cons, List.foldl_cons, List.foldl_cons, processEntry_xbutton1 _ _ _ hx1]
    exact ⟨entries_mem_blocked _ _ _ _ (by simp),
      entries_mem_blocked _ _ _ _ (by simp),
      entries_mem_callbacks _ _ _ _ (by simp)⟩
  · intro hx2
    rw [hrw]
    simp only [canonicalMapping]
    rw [List.foldl_cons, List.foldl_cons, List.foldl_cons, List.foldl_cons,
      processEntry_xbutton2 _ _ _ hx2]
    exact ⟨entries_mem_blocked _ _ _ _ (by simp),
      entries_mem_blocked _ _ _ _ (by simp),
      entries_mem_callbacks _ _ _ _ (by simp)⟩
  · intro hg hm
    have hfb : decide (g ≠ "none" ∧ m = "none") = true := by simp [hg, hm]
    rw [hrw]
    simp only [canonicalMapping]
    rw [List.foldl_cons, List.foldl_cons, processEntry_gesture _ _ _ hg, hfb]
    exact ⟨entries_mem_blocked _ _ _ _ (by simp),
      entries_mem_blocked _ _ _ _ (by simp),
      entries_mem_callbacks _ _ _ _ (by simp)⟩
  · rw [hrw]
    exact entries_no_up _ _ _ (by simp)

/-- C7 witness: with gesture mapped to "volume_up", middle pass-through
and side button 1 mapped to "alt_tab", rewiring from a dirty prior state
registers the gesture action on middle_down (the fallback) and blocks the
xbutton1 up edge. -/
theorem rewire_blocks_and_registers_witness :
    ("middle_down", "volume_up") ∈ (rewire ⟨[("junk", "a")], ["junk"]⟩
        (canonicalMapping "none" "volume_up" "alt_tab" "none" "browser_back" "none")).callbacks ∧
    "xbutton1_up" ∈ (rewire ⟨[("junk", "a")], ["junk"]⟩
        (canonicalMapping "none" "volume_up" "alt_tab" "none" "browser_back" "none")).blocked_events := by
  refine ⟨((rewire_blocks_and_registers ⟨[("junk", "a")], ["junk"]⟩
      "none" "volume_up" "alt_tab" "none" "browser_back" "none").2.2.2.2.2.1
      (by decide) (by decide)).2.2, ?_⟩
  exact ((rewire_blocks_and_registers ⟨[("junk", "a")], ["junk"]⟩
      "none" "volume_up" "alt_tab" "none" "browser_back" "none").2.2.2.1
      (by decide)).2.1

end MouseControl
